import Mathlib

/-!
Shallow embedding of the rep-counting core of the AI-Pose-Detection repository
(src/main.py and src/api/process.py), together with theorems checking the
natural-language specification against it.

Conventions of the embedding:
* Python floats are modelled as elements of a linear ordered field, instantiated
  at ℚ for the executable counter logic and at ℝ for the trigonometric
  `calculate_angle`.  The decimal literals 0.2, 0.4 and 0.5 of the source are
  the exact constants 1/5, 2/5 and 1/2.
* The Python `stage` variable holds the strings "down"/"up" or None; it is
  modelled as `Option String`.
* A MediaPipe landmark list is modelled as a record of optional landmarks for
  the joints the code reads; a `none` entry corresponds to a missing landmark,
  whose access in Python raises the exception swallowed by the `try/except`
  blocks, so every `try/except` becomes a `match` whose catch-all arm is the
  `except` branch.
-/

namespace PoseDetection

/-- One MediaPipe landmark: normalized x, y coordinates and a visibility score
(src/main.py reads exactly the fields `.x`, `.y`, `.visibility`). -/
structure Landmark (α : Type) where
  x : α
  y : α
  visibility : α
deriving DecidableEq, Repr

/-- The per-frame landmark list, restricted to the joints the code reads.
Each entry is `none` when that landmark is absent from the list (in Python
the access then raises and lands in the enclosing `except`). -/
structure Landmarks (α : Type) where
  left_shoulder : Option (Landmark α)
  right_shoulder : Option (Landmark α)
  left_elbow : Option (Landmark α)
  right_elbow : Option (Landmark α)
  left_wrist : Option (Landmark α)
  right_wrist : Option (Landmark α)
  left_hip : Option (Landmark α)
  right_hip : Option (Landmark α)
deriving DecidableEq, Repr

variable {α : Type} [LinearOrderedField α]

/-- Embedding of `check_pushup_position_simple` (src/main.py lines 105-140).
The `try` block first reads six landmarks; a missing one raises, and the bare
`except` returns `(False, "Detection error")`.  Then: wrists must have
visibility ≥ 0.2, shoulders must not be more than 0.4 above the hips, and both
wrists must be within 0.5 of vertical distance from their shoulder. -/
def check_pushup_position_simple (landmarks : Landmarks α) : Bool × String :=
  match landmarks.left_shoulder, landmarks.right_shoulder,
        landmarks.left_hip, landmarks.right_hip,
        landmarks.left_wrist, landmarks.right_wrist with
  | some left_shoulder, some right_shoulder, some left_hip, some right_hip,
    some left_wrist, some right_wrist =>
    if left_wrist.visibility < 1/5 ∨ right_wrist.visibility < 1/5 then
      (false, "Wrists not visible")
    else
      let shoulder_avg_y := (left_shoulder.y + right_shoulder.y) / 2
      let hip_avg_y := (left_hip.y + right_hip.y) / 2
      if shoulder_avg_y < hip_avg_y - 2/5 then
        (false, "Standing (get lower)")
      else
        let left_wrist_diff := |left_wrist.y - left_shoulder.y|
        let right_wrist_diff := |right_wrist.y - right_shoulder.y|
        if left_wrist_diff > 1/2 ∨ right_wrist_diff > 1/2 then
          (false, "Hands not at shoulder level")
        else
          (true, "Ready for push-ups")
  | _, _, _, _, _, _ => (false, "Detection error")

/-- Embedding of `count_curls` (src/main.py lines 142-154): average the two
elbow angles; above 160 the stage becomes "down"; below 50 while the stage is
"down" the stage becomes "up" and the counter is incremented. -/
def count_curls (counter : ℤ) (stage : Option String)
    (left_angle right_angle : α) : ℤ × Option String :=
  let avg_angle := (left_angle + right_angle) / 2
  let stage := if avg_angle > 160 then some "down" else stage
  if avg_angle < 50 ∧ stage = some "down" then
    (counter + 1, some "up")
  else
    (counter, stage)

/-- Embedding of `count_pushups_with_thresholds` (src/main.py lines 156-193).
Gate via `check_pushup_position_simple`; on gate failure the stage is cleared
and the counter returned unchanged.  Angles below 10 are skipped as invalid.
Otherwise: average below 100 sets stage "down"; average above 130 from stage
"down" sets stage "up" and increments; average above 130 otherwise just sets
stage "up".  (In the source the increment branch is followed by the
`stage != "down"` branch, which then also fires and re-assigns "up"; the
`if/else` hereunder is the same net effect.) -/
def count_pushups_with_thresholds (counter : ℤ) (stage : Option String)
    (left_angle right_angle : α) (landmarks : Landmarks α) :
    ℤ × Option String × Bool × String :=
  let pr := check_pushup_position_simple landmarks
  if pr.1 = false then
    (counter, none, pr.1, pr.2)
  else if left_angle < 10 ∨ right_angle < 10 then
    (counter, stage, pr.1, "Ready - move arms")
  else
    let avg_angle := (left_angle + right_angle) / 2
    let stage := if avg_angle < 100 then some "down" else stage
    if avg_angle > 130 ∧ stage = some "down" then
      (counter + 1, some "up", pr.1, pr.2)
    else
      let stage := if avg_angle > 130 ∧ stage ≠ some "down" then some "up" else stage
      (counter, stage, pr.1, pr.2)

/-- The inline position gate of `count_pullups_simple` (src/main.py lines
198-207): a wrist above (numerically-lower y than) its shoulder.  The
`try/except` around the four landmark reads makes a missing landmark yield
`in_position = False`. -/
def pullup_in_position (landmarks : Landmarks α) : Bool :=
  match landmarks.left_wrist, landmarks.right_wrist,
        landmarks.left_shoulder, landmarks.right_shoulder with
  | some left_wrist, some right_wrist, some left_shoulder, some right_shoulder =>
    decide (left_wrist.y < left_shoulder.y ∨ right_wrist.y < right_shoulder.y)
  | _, _, _, _ => false

/-- Embedding of `count_pullups_simple` (src/main.py lines 195-231).  Gate on
`pullup_in_position`; on gate failure clear the stage and keep the counter.
Angles below 10 are skipped.  Otherwise: average below 100 sets stage "up";
average above 130 from stage "up" sets stage "down" and increments; average
above 130 otherwise just sets stage "down". -/
def count_pullups_simple (counter : ℤ) (stage : Option String)
    (left_angle right_angle : α) (landmarks : Landmarks α) :
    ℤ × Option String × Bool × String :=
  let in_position := pullup_in_position landmarks
  if in_position = false then
    (counter, none, in_position, "Arms not overhead")
  else if left_angle < 10 ∨ right_angle < 10 then
    (counter, stage, in_position, "Ready")
  else
    let avg_angle := (left_angle + right_angle) / 2
    let stage := if avg_angle < 100 then some "up" else stage
    if avg_angle > 130 ∧ stage = some "up" then
      (counter + 1, some "down", in_position, "Ready for pull-ups")
    else
      let stage := if avg_angle > 130 ∧ stage ≠ some "up" then some "down" else stage
      (counter, stage, in_position, "Ready for pull-ups")

/-- The two-argument arctangent, as computed by `np.arctan2(y, x)`: the
bearing of the point `(x, y)`, in `(-π, π]`, with `atan2 0 0 = 0` (numpy's
convention on non-negative zeros).  Embedded as the argument of the complex
number `x + y i`. -/
noncomputable def atan2 (y x : ℝ) : ℝ :=
  Complex.arg (Complex.ofReal x + Complex.ofReal y * Complex.I)

/-- Embedding of `calculate_angle` (src/main.py lines 91-103 and
src/api/process.py lines 22-36, identical bodies): difference of the `atan2`
bearings of `c` and `a` seen from `b`, times 180/π, absolute value, folded by
`360 - angle` when above 180. -/
noncomputable def calculate_angle (a b c : ℝ × ℝ) : ℝ :=
  let radians := atan2 (c.2 - b.2) (c.1 - b.1) - atan2 (a.2 - b.2) (a.1 - b.1)
  let angle := |radians * (180 / Real.pi)|
  if angle > 180 then 360 - angle else angle

/-- The elbow angles the per-frame driver `run_exercise_counter` computes
(src/main.py lines 301-317): for each arm, `calculate_angle` at the elbow from
shoulder and wrist.  A missing landmark raises in Python and is caught by the
surrounding `except`, modelled by the `none` result. -/
noncomputable def arm_elbow_angles (landmarks : Landmarks ℝ) : Option (ℝ × ℝ) :=
  match landmarks.left_shoulder, landmarks.left_elbow, landmarks.left_wrist,
        landmarks.right_shoulder, landmarks.right_elbow, landmarks.right_wrist with
  | some ls, some le, some lw, some rs, some re, some rw =>
    some (calculate_angle (ls.x, ls.y) (le.x, le.y) (lw.x, lw.y),
          calculate_angle (rs.x, rs.y) (re.x, re.y) (rw.x, rw.y))
  | _, _, _, _, _, _ => none

/-- The curl branch of the per-frame driver `run_exercise_counter`
(src/main.py lines 294-333) for a frame with detected landmarks: `in_position`
is initialised to `True` (line 295) and the curl branch re-assigns `True`
(line 322); when an angle computation hits a missing landmark the `except`
keeps counter and stage and sets feedback "Calculating...". -/
noncomputable def run_curl_frame (counter : ℤ) (stage : Option String)
    (landmarks : Landmarks ℝ) : ℤ × Option String × Bool × String :=
  match arm_elbow_angles landmarks with
  | some (left_angle, right_angle) =>
    let r := count_curls counter stage left_angle right_angle
    (r.1, r.2, true, "Ready for curls")
  | none => (counter, stage, true, "Calculating...")

/-- Modelled from the spec: the exercise classifier is missing from src/; the
spec's ExerciseKind is the "enumerated variant \x7bCurl, Pushup, Pullup, None\x7d". -/
inductive ExerciseKind
  | curl
  | pushup
  | pullup
  | noLabel
deriving DecidableEq, Repr

/-- Modelled from the spec: the classifier's history capacity, "bounded
ordered sequence (fixed capacity, e.g. 10)". -/
def historyCapacity : ℕ := 10

/-- Modelled from the spec: pushing an instantaneous label into the
ClassificationHistory, missing from src/ — "FIFO — oldest evicted when a new
label is pushed".  The history is a list of labels, oldest first; below
capacity the label is appended, at capacity the oldest entry is dropped. -/
def pushLabel (history : List ExerciseKind) (label : ExerciseKind) :
    List ExerciseKind :=
  if history.length < historyCapacity then history ++ [label]
  else history.tail ++ [label]

/-- One frame of the curl counter as a fold step: state is (counter, stage),
a frame is the pair of elbow angles. -/
def curl_step (s : ℤ × Option String) (frame : α × α) : ℤ × Option String :=
  count_curls s.1 s.2 frame.1 frame.2

/-- One frame of the push-up counter as a fold step: state is
(counter, stage), a frame is the pair of elbow angles plus the landmark set. -/
def pushup_step (s : ℤ × Option String) (frame : (α × α) × Landmarks α) :
    ℤ × Option String :=
  let r := count_pushups_with_thresholds s.1 s.2 frame.1.1 frame.1.2 frame.2
  (r.1, r.2.1)

/-- One frame of the pull-up counter as a fold step: state is
(counter, stage), a frame is the pair of elbow angles plus the landmark set. -/
def pullup_step (s : ℤ × Option String) (frame : (α × α) × Landmarks α) :
    ℤ × Option String :=
  let r := count_pullups_simple s.1 s.2 frame.1.1 frame.1.2 frame.2
  (r.1, r.2.1)

/-- A concrete landmark set that passes the push-up position check and the
pull-up position check: wrists slightly above shoulders, hips below
shoulders, everything fully visible. -/
def sampleLandmarksInPosition : Landmarks ℚ :=
  ⟨some ⟨1/2, 1/2, 1⟩, some ⟨1/2, 1/2, 1⟩,
   some ⟨2/5, 2/5, 1⟩, some ⟨3/5, 2/5, 1⟩,
   some ⟨1/2, 3/10, 1⟩, some ⟨1/2, 3/10, 1⟩,
   some ⟨1/2, 3/5, 1⟩, some ⟨1/2, 3/5, 1⟩⟩

/-- A concrete landmark set with every landmark missing (a frame where the
detector reports nothing usable). -/
def sampleLandmarksEmpty : Landmarks ℚ :=
  ⟨none, none, none, none, none, none, none, none⟩

/-- A concrete landmark set where every landmark is present but the left
wrist has visibility 0.1, below the 0.2 threshold of the push-up check. -/
def sampleLandmarksLowVisibility : Landmarks ℚ :=
  ⟨some ⟨1/2, 1/2, 1⟩, some ⟨1/2, 1/2, 1⟩,
   some ⟨2/5, 2/5, 1⟩, some ⟨3/5, 2/5, 1⟩,
   some ⟨1/2, 3/10, 1/10⟩, some ⟨1/2, 3/10, 1⟩,
   some ⟨1/2, 3/5, 1⟩, some ⟨1/2, 3/5, 1⟩⟩

/-- A concrete real-valued frame for the curl driver. -/
def sampleFrameA : Landmarks ℝ :=
  ⟨some ⟨0, 0, 1⟩, some ⟨1, 0, 1⟩,
   some ⟨0, 1, 1⟩, some ⟨1, 1, 1⟩,
   some ⟨0, 2, 1⟩, some ⟨1, 2, 1⟩,
   some ⟨0, 3, 1⟩, some ⟨1, 3, 1⟩⟩

/-- The same frame as `sampleFrameA` on the arm joints but with a different
hip configuration (left hip missing), so the landmark sets differ while the
elbow angles agree. -/
def sampleFrameB : Landmarks ℝ :=
  ⟨some ⟨0, 0, 1⟩, some ⟨1, 0, 1⟩,
   some ⟨0, 1, 1⟩, some ⟨1, 1, 1⟩,
   some ⟨0, 2, 1⟩, some ⟨1, 2, 1⟩,
   none, some ⟨1, 4, 1⟩⟩

/-- Both `atan2` bearings lie in the half-open interval `(-π, π]`, exactly the
range of `np.arctan2`. -/
lemma atan2_mem_Ioc (y x : ℝ) : atan2 y x ∈ Set.Ioc (-Real.pi) Real.pi :=
  Complex.arg_mem_Ioc _

/-- On every input, `calculate_angle` returns a value in `[0, 180]`. -/
lemma calculate_angle_nonneg_le (a b c : ℝ × ℝ) :
    0 ≤ calculate_angle a b c ∧ calculate_angle a b c ≤ 180 := by
  obtain ⟨h1l, h1r⟩ := atan2_mem_Ioc (c.2 - b.2) (c.1 - b.1)
  obtain ⟨h2l, h2r⟩ := atan2_mem_Ioc (a.2 - b.2) (a.1 - b.1)
  have hpi := Real.pi_pos
  simp only [calculate_angle]
  set t1 := atan2 (c.2 - b.2) (c.1 - b.1) with ht1
  set t2 := atan2 (a.2 - b.2) (a.1 - b.1) with ht2
  have hd : |(t1 - t2) * (180 / Real.pi)| < 360 := by
    have habs : |t1 - t2| < 2 * Real.pi := by
      rw [abs_sub_lt_iff]
      constructor <;> linarith
    rw [abs_mul, abs_of_pos (by positivity : (0:ℝ) < 180 / Real.pi)]
    calc |t1 - t2| * (180 / Real.pi) < (2 * Real.pi) * (180 / Real.pi) :=
          mul_lt_mul_of_pos_right habs (by positivity)
      _ = 360 := by field_simp; ring
  split_ifs with h
  · constructor <;> linarith
  · exact ⟨abs_nonneg _, not_lt.mp h⟩

/-- Swapping the two ray endpoints negates the bearing difference, which the
absolute value then cancels. -/
lemma calculate_angle_comm (a b c : ℝ × ℝ) :
    calculate_angle a b c = calculate_angle c b a := by
  simp only [calculate_angle]
  rw [abs_mul, abs_mul, abs_sub_comm]

/-- The bearing of the point `(-1, 0)` is `π` (numpy: `arctan2(0, -1) = π`). -/
lemma atan2_zero_neg_one : atan2 (0:ℝ) (-1) = Real.pi := by
  have h : (Complex.ofReal (-1) + Complex.ofReal (0:ℝ) * Complex.I) = -1 := by
    push_cast
    ring
  rw [atan2, h, Complex.arg_neg_one]

/-- The bearing of the origin is `0` (numpy: `arctan2(0, 0) = 0`). -/
lemma atan2_zero_zero : atan2 (0:ℝ) 0 = 0 := by
  have h : (Complex.ofReal (0:ℝ) + Complex.ofReal (0:ℝ) * Complex.I) = 0 := by
    push_cast
    ring
  rw [atan2, h, Complex.arg_zero]

/-- When the push-up position gate fails, the counter is unchanged, the stage
is cleared and the gate's feedback is passed through. -/
lemma pushup_gate_false_eq (counter : ℤ) (stage : Option String) (la ra : ℚ)
    (lm : Landmarks ℚ) (hg : (check_pushup_position_simple lm).1 = false) :
    count_pushups_with_thresholds counter stage la ra lm
      = (counter, none, false, (check_pushup_position_simple lm).2) := by
  simp only [count_pushups_with_thresholds, hg]
  simp

/-- When the pull-up position gate fails, the counter is unchanged and the
stage is cleared. -/
lemma pullup_gate_false_eq (counter : ℤ) (stage : Option String) (la ra : ℚ)
    (lm : Landmarks ℚ) (hg : pullup_in_position lm = false) :
    count_pullups_simple counter stage la ra lm
      = (counter, none, false, "Arms not overhead") := by
  simp only [count_pullups_simple, hg]
  simp

/-- Per-call counter bounds for the curl counter. -/
lemma count_curls_bounds (counter : ℤ) (stage : Option String) (la ra : ℚ) :
    counter ≤ (count_curls counter stage la ra).1 ∧
    (count_curls counter stage la ra).1 ≤ counter + 1 := by
  simp only [count_curls]
  split_ifs <;> constructor <;> simp

/-- Per-call counter bounds for the push-up counter. -/
lemma count_pushups_bounds (counter : ℤ) (stage : Option String) (la ra : ℚ)
    (lm : Landmarks ℚ) :
    counter ≤ (count_pushups_with_thresholds counter stage la ra lm).1 ∧
    (count_pushups_with_thresholds counter stage la ra lm).1 ≤ counter + 1 := by
  simp only [count_pushups_with_thresholds]
  split_ifs <;> constructor <;> simp

/-- Per-call counter bounds for the pull-up counter. -/
lemma count_pullups_bounds (counter : ℤ) (stage : Option String) (la ra : ℚ)
    (lm : Landmarks ℚ) :
    counter ≤ (count_pullups_simple counter stage la ra lm).1 ∧
    (count_pullups_simple counter stage la ra lm).1 ≤ counter + 1 := by
  simp only [count_pullups_simple]
  split_ifs <;> constructor <;> simp

/-- A fold whose step never decreases the first (counter) component never
decreases it over a whole frame sequence. -/
lemma foldl_fst_mono {σ γ : Type} (step : ℤ × σ → γ → ℤ × σ)
    (hstep : ∀ s f, s.1 ≤ (step s f).1) :
    ∀ (frames : List γ) (s : ℤ × σ), s.1 ≤ (List.foldl step s frames).1 := by
  intro frames
  induction frames with
  | nil =>
    intro s
    simp
  | cons f fs ih =>
    intro s
    exact le_trans (hstep s f) (ih (step s f))

/-- Pushing one label preserves the history capacity bound. -/
lemma pushLabel_length_le (history : List ExerciseKind) (label : ExerciseKind)
    (h : history.length ≤ historyCapacity) :
    (pushLabel history label).length ≤ historyCapacity := by
  unfold pushLabel
  split_ifs with hlt <;> simp [List.length_tail, historyCapacity] at * <;> omega

/-- C1: every counting function returns a rep counter between the input
counter and the input counter plus one — it never decreases and grows by at
most 1 per call — and therefore over any frame sequence the counter is
non-decreasing and, started from 0, stays non-negative. -/
theorem rep_counters_monotone :
    (∀ (counter : ℤ) (stage : Option String) (la ra : ℚ),
       counter ≤ (count_curls counter stage la ra).1 ∧
       (count_curls counter stage la ra).1 ≤ counter + 1) ∧
    (∀ (counter : ℤ) (stage : Option String) (la ra : ℚ) (lm : Landmarks ℚ),
       counter ≤ (count_pushups_with_thresholds counter stage la ra lm).1 ∧
       (count_pushups_with_thresholds counter stage la ra lm).1 ≤ counter + 1) ∧
    (∀ (counter : ℤ) (stage : Option String) (la ra : ℚ) (lm : Landmarks ℚ),
       counter ≤ (count_pullups_simple counter stage la ra lm).1 ∧
       (count_pullups_simple counter stage la ra lm).1 ≤ counter + 1) ∧
    (∀ (s : ℤ × Option String) (frames : List (ℚ × ℚ)),
       s.1 ≤ (List.foldl curl_step s frames).1) ∧
    (∀ (s : ℤ × Option String) (frames : List ((ℚ × ℚ) × Landmarks ℚ)),
       s.1 ≤ (List.foldl pushup_step s frames).1) ∧
    (∀ (s : ℤ × Option String) (frames : List ((ℚ × ℚ) × Landmarks ℚ)),
       s.1 ≤ (List.foldl pullup_step s frames).1) ∧
    (∀ frames : List (ℚ × ℚ),
       0 ≤ (List.foldl curl_step ((0:ℤ), (none : Option String)) frames).1) ∧
    (∀ frames : List ((ℚ × ℚ) × Landmarks ℚ),
       0 ≤ (List.foldl pushup_step ((0:ℤ), (none : Option String)) frames).1) ∧
    (∀ frames : List ((ℚ × ℚ) × Landmarks ℚ),
       0 ≤ (List.foldl pullup_step ((0:ℤ), (none : Option String)) frames).1) := by
  have hcu : ∀ (s : ℤ × Option String) (f : ℚ × ℚ), s.1 ≤ (curl_step s f).1 :=
    fun s f => (count_curls_bounds s.1 s.2 f.1 f.2).1
  have hpu : ∀ (s : ℤ × Option String) (f : (ℚ × ℚ) × Landmarks ℚ),
      s.1 ≤ (pushup_step s f).1 :=
    fun s f => (count_pushups_bounds s.1 s.2 f.1.1 f.1.2 f.2).1
  have hpl : ∀ (s : ℤ × Option String) (f : (ℚ × ℚ) × Landmarks ℚ),
      s.1 ≤ (pullup_step s f).1 :=
    fun s f => (count_pullups_bounds s.1 s.2 f.1.1 f.1.2 f.2).1
  refine ⟨fun c s la ra => count_curls_bounds c s la ra,
    fun c s la ra lm => count_pushups_bounds c s la ra lm,
    fun c s la ra lm => count_pullups_bounds c s la ra lm,
    fun s frames => foldl_fst_mono curl_step hcu frames s,
    fun s frames => foldl_fst_mono pushup_step hpu frames s,
    fun s frames => foldl_fst_mono pullup_step hpl frames s,
    fun frames => foldl_fst_mono curl_step hcu frames (0, none),
    fun frames => foldl_fst_mono pushup_step hpu frames (0, none),
    fun frames => foldl_fst_mono pullup_step hpl frames (0, none)⟩

/-- C3: feeding the curl counter the average-angle sequence
[170, 170, 170, 30, 30, 170, 170, 30] (both arms at the given angle), from
counter 0 and stage None, ends with rep count 2 and stage "up". -/
theorem curl_scenario_two_reps :
    List.foldl curl_step ((0:ℤ), (none : Option String))
      [((170:ℚ), 170), (170, 170), (170, 170), (30, 30), (30, 30),
       (170, 170), (170, 170), (30, 30)]
      = (2, some "up") := by
  norm_num [List.foldl, curl_step, count_curls]
  simp

/-- C4: whenever the position gate of the push-up or the pull-up counter is
false, the returned stage is None and the returned counter equals the input
counter, whatever the elbow angles are. -/
theorem gate_false_clears_stage_and_freezes_counter :
    (∀ (counter : ℤ) (stage : Option String) (la ra : ℚ) (lm : Landmarks ℚ),
       (check_pushup_position_simple lm).1 = false →
       count_pushups_with_thresholds counter stage la ra lm
         = (counter, none, false, (check_pushup_position_simple lm).2)) ∧
    (∀ (counter : ℤ) (stage : Option String) (la ra : ℚ) (lm : Landmarks ℚ),
       pullup_in_position lm = false →
       count_pullups_simple counter stage la ra lm
         = (counter, none, false, "Arms not overhead")) :=
  ⟨fun counter stage la ra lm hg => pushup_gate_false_eq counter stage la ra lm hg,
   fun counter stage la ra lm hg => pullup_gate_false_eq counter stage la ra lm hg⟩

/-- C4 witness: on a frame with no landmarks at all, both gates are false and
both counters keep the counter at 5 and clear the stage, for angles 150/150. -/
theorem gate_false_clears_stage_and_freezes_counter_witness :
    count_pushups_with_thresholds (5:ℤ) (some "up") (150:ℚ) 150 sampleLandmarksEmpty
      = (5, none, false, "Detection error") ∧
    count_pullups_simple (5:ℤ) (some "up") (150:ℚ) 150 sampleLandmarksEmpty
      = (5, none, false, "Arms not overhead") :=
  ⟨gate_false_clears_stage_and_freezes_counter.1 5 (some "up") 150 150
      sampleLandmarksEmpty rfl,
   gate_false_clears_stage_and_freezes_counter.2 5 (some "up") 150 150
      sampleLandmarksEmpty rfl⟩

/-- C5 counterexample: the claim includes the curl counter, but when the
curl counter sees the average angle 30 (inside the trigger threshold, below
50) while the stage is None — not the rest-side "down" — it does not set the
stage to the trigger-side "up": it returns the stage unchanged (None). -/
theorem trigger_without_rest_counterexample :
    ((30:ℚ) + 30) / 2 < 50 ∧
    (none : Option String) ≠ some "down" ∧
    count_curls (0:ℤ) (none : Option String) (30:ℚ) 30 = (0, none) := by
  refine ⟨by norm_num, by simp, ?_⟩
  norm_num [count_curls]
  simp

/-- C5 amended: for the push-up and pull-up counters (gate true, both angles
at least 10), crossing into the trigger threshold while the stage is not the
rest-side state does not increment but still sets the stage to the
trigger-side state; the curl counter, however, then leaves both counter and
stage unchanged (it moves to "up" only from "down"). -/
theorem trigger_without_rest_amended :
    (∀ (counter : ℤ) (stage : Option String) (la ra : ℚ) (lm : Landmarks ℚ),
       (check_pushup_position_simple lm).1 = true → 10 ≤ la → 10 ≤ ra →
       130 < (la + ra) / 2 → stage ≠ some "down" →
       (count_pushups_with_thresholds counter stage la ra lm).1 = counter ∧
       (count_pushups_with_thresholds counter stage la ra lm).2.1 = some "up") ∧
    (∀ (counter : ℤ) (stage : Option String) (la ra : ℚ) (lm : Landmarks ℚ),
       pullup_in_position lm = true → 10 ≤ la → 10 ≤ ra →
       130 < (la + ra) / 2 → stage ≠ some "up" →
       (count_pullups_simple counter stage la ra lm).1 = counter ∧
       (count_pullups_simple counter stage la ra lm).2.1 = some "down") ∧
    (∀ (counter : ℤ) (stage : Option String) (la ra : ℚ),
       (la + ra) / 2 < 50 → stage ≠ some "down" →
       count_curls counter stage la ra = (counter, stage)) := by
  refine ⟨?_, ?_, ?_⟩
  · intro counter stage la ra lm hg hla hra havg hs
    simp only [count_pushups_with_thresholds, hg]
    rw [if_neg (by simp), if_neg (by push_neg; constructor <;> linarith)]
    have h1 : ¬ (la + ra) / 2 < 100 := by linarith
    simp only [if_neg h1]
    rw [if_neg (by simp [hs])]
    simp [havg, hs]
  · intro counter stage la ra lm hg hla hra havg hs
    simp only [count_pullups_simple, hg]
    rw [if_neg (by simp), if_neg (by push_neg; constructor <;> linarith)]
    have h1 : ¬ (la + ra) / 2 < 100 := by linarith
    simp only [if_neg h1]
    rw [if_neg (by simp [hs])]
    simp [havg, hs]
  · intro counter stage la ra havg hs
    simp only [count_curls]
    rw [if_neg (by linarith : ¬ (la + ra) / 2 > 160)]
    rw [if_neg (by simp [hs])]

/-- C5 witness: at angles 140/140 (average 140, inside the trigger) with
stage None, the push-up counter keeps 0 and moves its stage to "up", the
pull-up counter keeps 0 and moves its stage to "down", and the curl counter
at angles 30/30 with stage None stays at (0, None). -/
theorem trigger_without_rest_amended_witness :
    ((count_pushups_with_thresholds (0:ℤ) (none : Option String) (140:ℚ) 140
        sampleLandmarksInPosition).1 = 0 ∧
     (count_pushups_with_thresholds (0:ℤ) (none : Option String) (140:ℚ) 140
        sampleLandmarksInPosition).2.1 = some "up") ∧
    ((count_pullups_simple (0:ℤ) (none : Option String) (140:ℚ) 140
        sampleLandmarksInPosition).1 = 0 ∧
     (count_pullups_simple (0:ℤ) (none : Option String) (140:ℚ) 140
        sampleLandmarksInPosition).2.1 = some "down") ∧
    count_curls (0:ℤ) (none : Option String) (30:ℚ) 30 = (0, none) :=
  ⟨trigger_without_rest_amended.1 0 none 140 140 sampleLandmarksInPosition
      (by norm_num [check_pushup_position_simple, sampleLandmarksInPosition,
        lt_abs, abs_le])
      (by norm_num) (by norm_num) (by norm_num) (by simp),
   trigger_without_rest_amended.2.1 0 none 140 140 sampleLandmarksInPosition
      (by norm_num [pullup_in_position, sampleLandmarksInPosition])
      (by norm_num) (by norm_num) (by norm_num) (by simp),
   trigger_without_rest_amended.2.2 0 none 30 30 (by norm_num) (by simp)⟩

/-- C2 counterexample: with the gate true, the push-up counter does not follow
the claimed threshold table.  At average angle 170 (above 160, the claimed
rest condition that should only set stage to "up" without crediting) from
stage "down" the code credits a rep; and at average angle 80 (below 90, the
claimed trigger that should credit on the Up-to-Down transition) from stage
"up" the code credits nothing. -/
theorem pushup_threshold_table_counterexample :
    (check_pushup_position_simple sampleLandmarksInPosition).1 = true ∧
    count_pushups_with_thresholds (0:ℤ) (some "down") (170:ℚ) 170
        sampleLandmarksInPosition
      = (1, some "up", true, "Ready for push-ups") ∧
    count_pushups_with_thresholds (0:ℤ) (some "up") (80:ℚ) 80
        sampleLandmarksInPosition
      = (0, some "down", true, "Ready for push-ups") := by
  refine ⟨?_, ?_, ?_⟩ <;>
    norm_num [count_pushups_with_thresholds, check_pushup_position_simple,
      sampleLandmarksInPosition, lt_abs, abs_le]

/-- C2 amended: with the position gate true and both elbow angles at least
10, the push-up counter uses the thresholds of the code: average angle below
100 (bent) sets stage to "down" (the rest side), average angle above 130
(extended) sets stage to "up", and a rep is credited exactly on the
Down-to-Up transition (average above 130 while the stage is "down").  The
gate flag is returned true and the gate's feedback is passed through. -/
theorem pushup_threshold_table_amended (counter : ℤ) (stage : Option String)
    (la ra : ℚ) (lm : Landmarks ℚ)
    (hg : (check_pushup_position_simple lm).1 = true)
    (hla : 10 ≤ la) (hra : 10 ≤ ra) :
    (count_pushups_with_thresholds counter stage la ra lm).1 =
      (if 130 < (la + ra) / 2 ∧ stage = some "down" then counter + 1
       else counter) ∧
    (count_pushups_with_thresholds counter stage la ra lm).2.1 =
      (if 130 < (la + ra) / 2 then some "up"
       else if (la + ra) / 2 < 100 then some "down" else stage) ∧
    (count_pushups_with_thresholds counter stage la ra lm).2.2.1 = true ∧
    (count_pushups_with_thresholds counter stage la ra lm).2.2.2 =
      (check_pushup_position_simple lm).2 := by
  simp only [count_pushups_with_thresholds, hg]
  rw [if_neg (by simp), if_neg (by push_neg; constructor <;> linarith)]
  by_cases h1 : (la + ra) / 2 < 100
  · have h2 : ¬ 130 < (la + ra) / 2 := by linarith
    simp only [if_pos h1, if_neg h2]
    simp [h2]
  · by_cases h2 : 130 < (la + ra) / 2
    · simp only [if_neg h1, if_pos h2]
      by_cases hs : stage = some "down"
      · simp [hs, h2]
      · simp [hs, h2]
    · simp only [if_neg h1, if_neg h2]
      simp [h2, h1]

/-- C2 witness: from stage "down" at angles 170/170 on an in-position frame,
the amended characterization credits the rep and flips the stage to "up". -/
theorem pushup_threshold_table_amended_witness :
    (count_pushups_with_thresholds (0:ℤ) (some "down") (170:ℚ) 170
        sampleLandmarksInPosition).1 =
      (if 130 < ((170:ℚ) + 170) / 2 ∧ (some "down" : Option String) = some "down"
       then (0:ℤ) + 1 else 0) ∧
    (count_pushups_with_thresholds (0:ℤ) (some "down") (170:ℚ) 170
        sampleLandmarksInPosition).2.1 =
      (if 130 < ((170:ℚ) + 170) / 2 then some "up"
       else if ((170:ℚ) + 170) / 2 < 100 then some "down" else some "down") ∧
    (count_pushups_with_thresholds (0:ℤ) (some "down") (170:ℚ) 170
        sampleLandmarksInPosition).2.2.1 = true ∧
    (count_pushups_with_thresholds (0:ℤ) (some "down") (170:ℚ) 170
        sampleLandmarksInPosition).2.2.2 =
      (check_pushup_position_simple sampleLandmarksInPosition).2 :=
  pushup_threshold_table_amended 0 (some "down") 170 170 sampleLandmarksInPosition
    (by norm_num [check_pushup_position_simple, sampleLandmarksInPosition,
      lt_abs, abs_le])
    (by norm_num) (by norm_num)

/-- C6: for every triple of planar points with `b` distinct from `a` and from
`c`, `calculate_angle a b c` lies in `[0, 180]` and is symmetric under
swapping the two ray endpoints. -/
theorem calculate_angle_range_and_symm (a b c : ℝ × ℝ)
    (hba : b ≠ a) (hbc : b ≠ c) :
    0 ≤ calculate_angle a b c ∧ calculate_angle a b c ≤ 180 ∧
    calculate_angle a b c = calculate_angle c b a :=
  ⟨(calculate_angle_nonneg_le a b c).1, (calculate_angle_nonneg_le a b c).2,
   calculate_angle_comm a b c⟩

/-- C6 witness: the right-angle configuration a = (1,0), b = (0,0),
c = (0,1). -/
theorem calculate_angle_range_and_symm_witness :
    ((0:ℝ), (0:ℝ)) ≠ ((1:ℝ), (0:ℝ)) ∧ ((0:ℝ), (0:ℝ)) ≠ ((0:ℝ), (1:ℝ)) ∧
    (0 ≤ calculate_angle ((1:ℝ), 0) (0, 0) (0, 1) ∧
     calculate_angle ((1:ℝ), 0) (0, 0) (0, 1) ≤ 180 ∧
     calculate_angle ((1:ℝ), 0) (0, 0) (0, 1)
       = calculate_angle ((0:ℝ), 1) (0, 0) (1, 0)) :=
  ⟨by norm_num [Prod.ext_iff], by norm_num [Prod.ext_iff],
   calculate_angle_range_and_symm ((1:ℝ), 0) (0, 0) (0, 1)
     (by norm_num [Prod.ext_iff]) (by norm_num [Prod.ext_iff])⟩

/-- C7 counterexample: on the degenerate input a = b = (0,0) with
c = (-1,0), `calculate_angle` returns 180, not 0: `np.arctan2(0,0)` is 0, so
the result is the absolute bearing of the remaining ray, here π, scaled to
180 degrees. -/
theorem calculate_angle_degenerate_counterexample :
    calculate_angle ((0:ℝ), 0) (0, 0) (-1, 0) = 180 ∧
    calculate_angle ((0:ℝ), 0) (0, 0) (-1, 0) ≠ 0 := by
  have hpi := Real.pi_pos
  have hval : calculate_angle ((0:ℝ), 0) (0, 0) (-1, 0) = 180 := by
    simp only [calculate_angle]
    norm_num [atan2_zero_neg_one, atan2_zero_zero]
    rw [abs_of_pos (by positivity : (0:ℝ) < Real.pi * (180 / Real.pi))]
    rw [show Real.pi * (180 / Real.pi) = 180 by field_simp]
    norm_num
  exact ⟨hval, by rw [hval]; norm_num⟩

/-- C7 amended: `calculate_angle` on a degenerate input (a zero-length ray
at the vertex) never produces an undefined value — the result is always a
well-defined angle in `[0, 180]` — and it returns exactly 0 when both rays
are degenerate (a = b and c = b), but when only one ray is degenerate the
result is the absolute bearing of the other ray, which can be nonzero. -/
theorem calculate_angle_degenerate_amended (a b c : ℝ × ℝ) :
    (a = b ∧ c = b → calculate_angle a b c = 0) ∧
    ((a = b ∨ c = b) →
      0 ≤ calculate_angle a b c ∧ calculate_angle a b c ≤ 180) := by
  constructor
  · rintro ⟨rfl, rfl⟩
    simp [calculate_angle]
  · intro _
    exact calculate_angle_nonneg_le a b c

/-- C7 witness: the fully degenerate input returns 0, and a half-degenerate
input stays inside `[0, 180]`. -/
theorem calculate_angle_degenerate_amended_witness :
    calculate_angle ((0:ℝ), 0) ((0:ℝ), 0) ((0:ℝ), 0) = 0 ∧
    (0 ≤ calculate_angle ((2:ℝ), 3) ((2:ℝ), 3) ((5:ℝ), 7) ∧
     calculate_angle ((2:ℝ), 3) ((2:ℝ), 3) ((5:ℝ), 7) ≤ 180) :=
  ⟨(calculate_angle_degenerate_amended ((0:ℝ), 0) ((0:ℝ), 0) ((0:ℝ), 0)).1
      ⟨rfl, rfl⟩,
   (calculate_angle_degenerate_amended ((2:ℝ), 3) ((2:ℝ), 3) ((5:ℝ), 7)).2
      (Or.inl rfl)⟩

/-- C8: the position-gate predicates are total functions — the embedding of
the try/except blocks never fails.  A landmark set with any required entry
missing makes the push-up check return gate-false with the "Detection error"
feedback and the counter unchanged with stage cleared; a wrist with
visibility below the 0.2 threshold likewise makes the gate false, freezing
the counter and clearing the stage; and a missing landmark makes the
pull-up gate false with its feedback, counter kept and stage cleared. -/
theorem missing_landmark_never_throws :
    (∀ (lm : Landmarks ℚ) (counter : ℤ) (stage : Option String) (la ra : ℚ),
       (lm.left_shoulder = none ∨ lm.right_shoulder = none ∨
        lm.left_hip = none ∨ lm.right_hip = none ∨
        lm.left_wrist = none ∨ lm.right_wrist = none) →
       check_pushup_position_simple lm = (false, "Detection error") ∧
       count_pushups_with_thresholds counter stage la ra lm
         = (counter, none, false, "Detection error")) ∧
    (∀ (lm : Landmarks ℚ) (w : Landmark ℚ) (counter : ℤ) (stage : Option String)
       (la ra : ℚ),
       lm.left_wrist = some w → w.visibility < 1/5 →
       (check_pushup_position_simple lm).1 = false ∧
       count_pushups_with_thresholds counter stage la ra lm
         = (counter, none, false, (check_pushup_position_simple lm).2)) ∧
    (∀ (lm : Landmarks ℚ) (w : Landmark ℚ) (counter : ℤ) (stage : Option String)
       (la ra : ℚ),
       lm.right_wrist = some w → w.visibility < 1/5 →
       (check_pushup_position_simple lm).1 = false ∧
       count_pushups_with_thresholds counter stage la ra lm
         = (counter, none, false, (check_pushup_position_simple lm).2)) ∧
    (∀ (lm : Landmarks ℚ) (counter : ℤ) (stage : Option String) (la ra : ℚ),
       (lm.left_wrist = none ∨ lm.right_wrist = none ∨
        lm.left_shoulder = none ∨ lm.right_shoulder = none) →
       pullup_in_position lm = false ∧
       count_pullups_simple counter stage la ra lm
         = (counter, none, false, "Arms not overhead")) := by
  refine ⟨?_, ?_, ?_, ?_⟩
  · intro lm counter stage la ra h
    have hcheck : check_pushup_position_simple lm = (false, "Detection error") := by
      obtain ⟨ls, rs, le, re, lw, rw, lh, rh⟩ := lm
      rcases ls with _ | ls <;> rcases rs with _ | rs <;>
        rcases lh with _ | lh <;> rcases rh with _ | rh <;>
        rcases lw with _ | lw <;> rcases rw with _ | rw <;>
        simp_all [check_pushup_position_simple]
    refine ⟨hcheck, ?_⟩
    have := pushup_gate_false_eq counter stage la ra lm (by rw [hcheck])
    rw [this, hcheck]
  · intro lm w counter stage la ra hw hv
    have hfalse : (check_pushup_position_simple lm).1 = false := by
      obtain ⟨ls, rs, le, re, lw, rw, lh, rh⟩ := lm
      rcases ls with _ | ls <;> rcases rs with _ | rs <;>
        rcases lh with _ | lh <;> rcases rh with _ | rh <;>
        rcases lw with _ | lw <;> rcases rw with _ | rw <;>
        simp_all [check_pushup_position_simple]
    exact ⟨hfalse, pushup_gate_false_eq counter stage la ra lm hfalse⟩
  · intro lm w counter stage la ra hw hv
    have hfalse : (check_pushup_position_simple lm).1 = false := by
      obtain ⟨ls, rs, le, re, lw, rw, lh, rh⟩ := lm
      rcases ls with _ | ls <;> rcases rs with _ | rs <;>
        rcases lh with _ | lh <;> rcases rh with _ | rh <;>
        rcases lw with _ | lw <;> rcases rw with _ | rw <;>
        simp_all [check_pushup_position_simple]
    exact ⟨hfalse, pushup_gate_false_eq counter stage la ra lm hfalse⟩
  · intro lm counter stage la ra h
    have hfalse : pullup_in_position lm = false := by
      obtain ⟨ls, rs, le, re, lw, rw, lh, rh⟩ := lm
      rcases ls with _ | ls <;> rcases rs with _ | rs <;>
        rcases lw with _ | lw <;> rcases rw with _ | rw <;>
        simp_all [pullup_in_position]
    exact ⟨hfalse, pullup_gate_false_eq counter stage la ra lm hfalse⟩

/-- C8 witness: the empty landmark set trips the missing-landmark paths of
both gates, and the low-visibility set trips the wrist-visibility path, each
freezing the counter (7) and clearing the stage. -/
theorem missing_landmark_never_throws_witness :
    (check_pushup_position_simple sampleLandmarksEmpty
       = (false, "Detection error") ∧
     count_pushups_with_thresholds (7:ℤ) (some "down") (120:ℚ) 120
         sampleLandmarksEmpty
       = (7, none, false, "Detection error")) ∧
    ((check_pushup_position_simple sampleLandmarksLowVisibility).1 = false ∧
     count_pushups_with_thresholds (7:ℤ) (some "down") (120:ℚ) 120
         sampleLandmarksLowVisibility
       = (7, none, false,
          (check_pushup_position_simple sampleLandmarksLowVisibility).2)) ∧
    (pullup_in_position sampleLandmarksEmpty = false ∧
     count_pullups_simple (7:ℤ) (some "down") (120:ℚ) 120 sampleLandmarksEmpty
       = (7, none, false, "Arms not overhead")) :=
  ⟨missing_landmark_never_throws.1 sampleLandmarksEmpty 7 (some "down") 120 120
      (Or.inl rfl),
   missing_landmark_never_throws.2.1 sampleLandmarksLowVisibility
      ⟨1/2, 3/10, 1/10⟩ 7 (some "down") 120 120 rfl (by norm_num),
   missing_landmark_never_throws.2.2.2 sampleLandmarksEmpty 7 (some "down")
      120 120 (Or.inl rfl)⟩

/-- C9: the ClassificationHistory is a bounded FIFO buffer — pushing any
sequence of labels into an empty history never grows it beyond the capacity
10, and a push at capacity evicts exactly the oldest (front) entry, keeping
the length at capacity. -/
theorem classification_history_bounded_fifo :
    (∀ labels : List ExerciseKind,
       (List.foldl pushLabel [] labels).length ≤ historyCapacity) ∧
    (∀ (history : List ExerciseKind) (label : ExerciseKind),
       history.length = historyCapacity →
       pushLabel history label = history.tail ++ [label] ∧
       (pushLabel history label).length = historyCapacity) := by
  constructor
  · have key : ∀ (labels : List ExerciseKind) (h : List ExerciseKind),
        h.length ≤ historyCapacity →
        (List.foldl pushLabel h labels).length ≤ historyCapacity := by
      intro labels
      induction labels with
      | nil =>
        intro h hh
        simpa using hh
      | cons l ls ih =>
        intro h hh
        exact ih (pushLabel h l) (pushLabel_length_le h l hh)
    intro labels
    exact key labels [] (by simp [historyCapacity])
  · intro history label hlen
    constructor
    · unfold pushLabel
      rw [if_neg (by simp [hlen])]
    · unfold pushLabel
      rw [if_neg (by simp [hlen])]
      rcases history with _ | ⟨x, xs⟩
      · simp [historyCapacity] at hlen
      · simp at hlen ⊢
        omega

/-- C9 witness: a history of ten Curl labels is at capacity; pushing a
Pushup label evicts the front entry and keeps the length at 10, and a
14-label stream folded into the empty history respects the bound. -/
theorem classification_history_bounded_fifo_witness :
    (List.foldl pushLabel []
       (List.replicate 14 ExerciseKind.pullup)).length ≤ historyCapacity ∧
    (pushLabel (List.replicate 10 ExerciseKind.curl) ExerciseKind.pushup
       = (List.replicate 10 ExerciseKind.curl).tail ++ [ExerciseKind.pushup] ∧
     (pushLabel (List.replicate 10 ExerciseKind.curl)
        ExerciseKind.pushup).length = historyCapacity) :=
  ⟨classification_history_bounded_fifo.1 (List.replicate 14 ExerciseKind.pullup),
   classification_history_bounded_fifo.2 (List.replicate 10 ExerciseKind.curl)
     ExerciseKind.pushup (by simp [historyCapacity])⟩

/-- C10: the curl counter has no position gate: the per-frame driver reports
the gate unconditionally true on every frame routed to the curl counter, and
the frame's result is a function of the computed elbow angles alone — two
frames whose landmark sets induce the same elbow angles produce identical
results, whatever the remaining landmarks are. -/
theorem curl_counter_landmark_independent :
    (∀ (counter : ℤ) (stage : Option String) (lm : Landmarks ℝ),
       (run_curl_frame counter stage lm).2.2.1 = true) ∧
    (∀ (counter : ℤ) (stage : Option String) (lm1 lm2 : Landmarks ℝ),
       arm_elbow_angles lm1 = arm_elbow_angles lm2 →
       run_curl_frame counter stage lm1 = run_curl_frame counter stage lm2) := by
  constructor
  · intro counter stage lm
    rcases h : arm_elbow_angles lm with _ | ⟨la, ra⟩ <;>
      simp [run_curl_frame, h]
  · intro counter stage lm1 lm2 h
    simp only [run_curl_frame, h]

/-- C10 witness: two frames that agree on the six arm landmarks but differ on
the hips (one hip missing entirely) are distinct landmark sets, yet the curl
frame result is identical and the gate flag is true. -/
theorem curl_counter_landmark_independent_witness :
    sampleFrameA ≠ sampleFrameB ∧
    run_curl_frame (3:ℤ) (some "down") sampleFrameA
      = run_curl_frame (3:ℤ) (some "down") sampleFrameB ∧
    (run_curl_frame (3:ℤ) (some "down") sampleFrameA).2.2.1 = true :=
  ⟨by simp [sampleFrameA, sampleFrameB],
   curl_counter_landmark_independent.2 3 (some "down") sampleFrameA sampleFrameB
     rfl,
   curl_counter_landmark_independent.1 3 (some "down") sampleFrameA⟩

end PoseDetection
